import Mathlib

/-!
Verification of the Ghost installer/uninstaller scripts (install.py,
uninstall.py): a shallow embedding of both scripts' control flow, with
external processes modelled by an oracle mapping each command line to an
exit code and captured stderr, and console output modelled as a trace of
structured events.
-/

namespace Ghost

/-- Result of one external command invocation: exit code and captured
standard error (install.py runs with capture_output=True; uninstall.py
does not read the captured text). -/
structure ExecResult where
  returncode : Int
  stderr : String
  deriving DecidableEq

/-- Interactive answer to the install-mode prompt (install.py line 112,
choices venv / brek / system). -/
inductive Choice where
  | venv
  | brek
  | system
  deriving DecidableEq

/-- One console output or interaction event. -/
inductive Event where
  | logCmd (cmd : List String)
  | errorPanel (stderr : String)
  | panel (msg : String)
  | printed (msg : String)
  | cmdFailedPanel (cmd : List String)
  | confirmAsk (question : String) (answer : Bool)
  | rmtree (path : String)
  deriving DecidableEq

/-- Execution trace of a script run: console events, the command lines
handed to the subprocess facility, and whether a SystemExit aborted the
run. -/
structure Trace where
  events : List Event
  cmds : List (List String)
  aborted : Bool
  deriving DecidableEq

/-- Command-line flags of install.py (argparse, lines 97 to 102). -/
structure Args where
  no_venv : Bool
  venv : String
  brek : Bool
  yes : Bool

/-- Outcome of the mode-selection block of install.py main
(lines 106 to 129): the two mode booleans and whether the interactive
prompt was consulted. -/
structure ModeSel where
  use_brek : Bool
  use_venv : Bool
  prompted : Bool
  deriving DecidableEq

/-- Mode selection of install.py main, lines 106 to 129.  The
interactive answer is passed in as `choice` and is consulted only on the
interactive branch. -/
def selectMode (args : Args) (choice : Choice) : ModeSel :=
  let use_brek := args.brek
  let use_venv := !args.no_venv
  let auto_yes := args.yes
  if !(args.brek || args.no_venv) && !auto_yes then
    match choice with
    | Choice.venv => ⟨false, true, true⟩
    | Choice.brek => ⟨true, false, true⟩
    | Choice.system => ⟨false, false, true⟩
  else if auto_yes then ⟨false, true, false⟩
  else ⟨use_brek, use_venv, false⟩

/-- The spec's InstallMode enumeration (spec section 3). -/
inductive InstallMode where
  | UseVirtualEnv
  | FilteredSystemOnly
  | DirectSystem
  deriving DecidableEq

/-- Bridge from the source's pair of booleans to the spec's InstallMode:
a venv run is UseVirtualEnv, otherwise the brek boolean distinguishes
FilteredSystemOnly from DirectSystem. -/
def modeOf (s : ModeSel) : InstallMode :=
  if s.use_venv then InstallMode.UseVirtualEnv
  else if s.use_brek then InstallMode.FilteredSystemOnly
  else InstallMode.DirectSystem

/-- The VCS_PACKAGES constant of install.py, lines 43 to 49. -/
def VCS_PACKAGES : List String :=
  ["badges @ git+https://github.com/EntySec/Badges",
   "pex @ git+https://github.com/EntySec/Pex",
   "colorscript @ git+https://github.com/EntySec/ColorScript",
   "adb-shell>=0.1.0",
   "rich>=10.0"]

/-- The PY_PACKAGES constant of install.py, line 51 (empty; never read
by main). -/
def PY_PACKAGES : List String := []

/-- The PYTHON_PACKAGES constant of uninstall.py, lines 42 to 48. -/
def PYTHON_PACKAGES : List String :=
  ["ghost", "adb-shell", "pex", "badges", "colorscript"]

/-- The pip flag appended when bypassing the externally-managed
environment protection. -/
def breakFlag : String := "--break-system-packages"

/-- The default virtualenv directory (ROOT / .venv in both scripts),
taken relative to the scripts' directory. -/
def DEFAULT_VENV : String := ".venv"

/-- Path join, embedding pathlib's / operator. -/
def pjoin (a b : String) : String := a ++ "/" ++ b

/-- A command line is a pip-install invocation: some interpreter
followed by -m pip install. -/
def isPipInstall (c : List String) : Prop :=
  (c.drop 1).take 3 = ["-m", "pip", "install"]

instance (c : List String) : Decidable (isPipInstall c) := by
  unfold isPipInstall
  infer_instance

end Ghost

namespace Ghost.Install

/-- Environment of one install.py run: the subprocess oracle, whether
the requested virtualenv directory exists, the platform (os.name), and
sys.executable. -/
structure InstallWorld where
  exec : List String → ExecResult
  venvExists : Bool
  isWindows : Bool
  sysExecutable : String

/-- install.py run (lines 56 to 62): log the command line, execute with
output captured, on non-zero exit print the captured stderr in an error
panel and, when check holds, raise SystemExit (modelled as the aborted
flag; nothing later in the run executes).  A trace that is already
aborted is left untouched, encoding that code after a SystemExit never
runs. -/
def run (w : InstallWorld) (t : Trace) (cmd : List String) (check : Bool) : Trace :=
  if t.aborted then t
  else
    let t1 : Trace := ⟨t.events ++ [Event.logCmd cmd], t.cmds ++ [cmd], false⟩
    let res := w.exec cmd
    if res.returncode ≠ 0 then
      let t2 : Trace := ⟨t1.events ++ [Event.errorPanel res.stderr], t1.cmds, false⟩
      if check then ⟨t2.events, t2.cmds, true⟩ else t2
    else t1

/-- Console output inside install.py: performed only while the run has
not aborted. -/
def emit (t : Trace) (e : Event) : Trace :=
  if t.aborted then t else ⟨t.events ++ [e], t.cmds, t.aborted⟩

def usingVenvMsg (p : String) : String := "Using existing virtualenv: " ++ p

def creatingVenvMsg (p : String) : String := "Creating virtualenv at: " ++ p

/-- install.py ensure_virtualenv (lines 65 to 77): reuse an existing
directory or create one via the venv module, then resolve the
interpreter and pip paths by platform layout.  Returns the trace and the
two resolved paths. -/
def ensure_virtualenv (w : InstallWorld) (t : Trace) (venv_path : String) :
    Trace × String × String :=
  let t1 :=
    if w.venvExists then emit t (Event.panel (usingVenvMsg venv_path))
    else
      run w (emit t (Event.panel (creatingVenvMsg venv_path)))
        [w.sysExecutable, "-m", "venv", venv_path] true
  if w.isWindows then
    (t1, pjoin (pjoin venv_path "Scripts") "python.exe",
     pjoin (pjoin venv_path "Scripts") "pip.exe")
  else
    (t1, pjoin (pjoin venv_path "bin") "python",
     pjoin (pjoin venv_path "bin") "pip")

/-- install.py install_packages (lines 80 to 86): no-op on an empty
list; otherwise one pip-install command over the whole list, with the
bypass flag appended when requested. -/
def install_packages (w : InstallWorld) (t : Trace) (py_exe : String)
    (packages : List String) (break_system : Bool) : Trace :=
  if packages = [] then t
  else
    run w t
      ((py_exe :: "-m" :: "pip" :: "install" :: packages) ++
        (if break_system then [breakFlag] else [])) true

/-- install.py install_local_package (lines 89 to 93). -/
def install_local_package (w : InstallWorld) (t : Trace) (py_exe : String)
    (break_system : Bool) : Trace :=
  run w t
    ([py_exe, "-m", "pip", "install", ".", "--no-deps"] ++
      (if break_system then [breakFlag] else [])) true

def bannerMsg : String := "Ghost Installer - staged installation"

def noticeMsg : String :=
  "Installing into current Python interpreter (no virtualenv). --break-system-packages enabled"

def upgradingMsg : String := "Upgrading pip in target environment..."

def vcsHeaderMsg : String :=
  "Installing VCS/GitHub packages (" ++ toString VCS_PACKAGES.length ++ " items)..."

def mainHeaderMsg : String := "Installing Ghost main package..."

def completedMsg : String := "Installation completed successfully!"

def youCanRunMsg : String := "You can now run: ghost"

/-- install.py main (lines 96 to 153) after argument parsing: mode
selection, optional notice, environment resolution, pip self-upgrade,
VCS package install, local package install, completion messages.  Every
step respects a SystemExit raised earlier (the aborted flag). -/
def main (args : Args) (choice : Choice) (w : InstallWorld) : Trace :=
  let t0 : Trace := ⟨[Event.panel bannerMsg], [], false⟩
  let st := selectMode args choice
  let break_system_flag := !st.use_venv
  let t1 := if break_system_flag then emit t0 (Event.panel noticeMsg) else t0
  let er :=
    if st.use_venv then ensure_virtualenv w t1 args.venv
    else (t1, w.sysExecutable, w.sysExecutable)
  let t2 := er.1
  let py_exe := er.2.1
  let t3 := emit t2 (Event.printed upgradingMsg)
  let t4 :=
    run w t3
      ([py_exe, "-m", "pip", "install", "--upgrade", "pip"] ++
        (if break_system_flag then [breakFlag] else [])) true
  let t5 := emit t4 (Event.panel vcsHeaderMsg)
  let t6 := install_packages w t5 py_exe VCS_PACKAGES break_system_flag
  let t7 := emit t6 (Event.panel mainHeaderMsg)
  let t8 := install_local_package w t7 py_exe break_system_flag
  let t9 := emit t8 (Event.panel completedMsg)
  emit t9 (Event.printed youCanRunMsg)

end Ghost.Install

namespace Ghost.Uninstall

/-- Environment of one uninstall.py run: the subprocess oracle, which
filesystem paths exist, the two interactive confirmation answers, and
sys.executable. -/
structure UninstallWorld where
  exec : List String → ExecResult
  fsExists : String → Bool
  confirmRemove : Bool
  confirmUninstall : Bool
  sysExecutable : String

/-- uninstall.py run (lines 54 to 59): log the command line, execute
without capturing output, and on non-zero exit (when check holds) print
a failure panel naming the command.  Nothing is raised and the process
never aborts here. -/
def run (w : UninstallWorld) (t : Trace) (cmd : List String) (check : Bool) : Trace :=
  let t1 : Trace := ⟨t.events ++ [Event.logCmd cmd], t.cmds ++ [cmd], t.aborted⟩
  if check then
    if (w.exec cmd).returncode ≠ 0 then
      ⟨t1.events ++ [Event.cmdFailedPanel cmd], t1.cmds, t1.aborted⟩
    else t1
  else t1

def uninstallingMsg (pkg : String) : String := "Uninstalling package: " ++ pkg

/-- The command line the uninstall loop builds for one package
(uninstall.py lines 66 to 68). -/
def uninstallCmd (python_exe pkg : String) (break_system : Bool) : List String :=
  [python_exe, "-m", "pip", "uninstall", "-y", pkg] ++
    (if break_system then [breakFlag] else [])

/-- Body of the uninstall loop (uninstall.py lines 64 to 69): announce
the package, then run pip uninstall for it, with the bypass flag
appended when requested. -/
def uninstall_step (w : UninstallWorld) (python_exe : String) (break_system : Bool)
    (acc : Trace) (pkg : String) : Trace :=
  let acc1 : Trace := ⟨acc.events ++ [Event.panel (uninstallingMsg pkg)], acc.cmds, acc.aborted⟩
  run w acc1 (uninstallCmd python_exe pkg break_system) true

/-- uninstall.py uninstall_packages (lines 62 to 69): one pip-uninstall
run per package in PYTHON_PACKAGES; every package is attempted in
order. -/
def uninstall_packages (w : UninstallWorld) (t : Trace) (python_exe : String)
    (break_system : Bool) : Trace :=
  PYTHON_PACKAGES.foldl (uninstall_step w python_exe break_system) t

def removingVenvMsg (p : String) : String := "Removing virtualenv: " ++ p

def venvRemovedMsg : String := "Virtualenv removed."

def noVenvMsg : String := "No virtualenv found."

/-- uninstall.py remove_virtualenv (lines 72 to 80): if the directory
exists, announce, remove it recursively by library call (no subprocess
command) and confirm; otherwise print that no virtualenv was found. -/
def remove_virtualenv (w : UninstallWorld) (t : Trace) (venv_path : String) : Trace :=
  if w.fsExists venv_path then
    ⟨t.events ++ [Event.panel (removingVenvMsg venv_path), Event.rmtree venv_path,
      Event.panel venvRemovedMsg], t.cmds, t.aborted⟩
  else ⟨t.events ++ [Event.panel noVenvMsg], t.cmds, t.aborted⟩

def uninstBannerMsg : String := "Ghost Uninstaller"

def removeQuestion : String :=
  "Detected virtualenv at " ++ DEFAULT_VENV ++ ". Remove it?"

def uninstallQuestion : String :=
  "Do you want to uninstall Ghost Python packages from system interpreter?"

def uninstCompletedMsg : String := "Uninstall process completed."

/-- uninstall.py main (lines 83 to 98): banner; when the default venv
directory exists, ask whether to remove it and do so on a yes; then ask
whether to uninstall the packages from the system interpreter and, on a
yes, run the per-package uninstalls with the bypass flag; finally print
the completion panel unconditionally. -/
def main (w : UninstallWorld) : Trace :=
  let t0 : Trace := ⟨[Event.panel uninstBannerMsg], [], false⟩
  let t1 :=
    if w.fsExists DEFAULT_VENV then
      let ta : Trace :=
        ⟨t0.events ++ [Event.confirmAsk removeQuestion w.confirmRemove], t0.cmds, t0.aborted⟩
      if w.confirmRemove then remove_virtualenv w ta DEFAULT_VENV else ta
    else t0
  let t2 : Trace :=
    ⟨t1.events ++ [Event.confirmAsk uninstallQuestion w.confirmUninstall], t1.cmds, t1.aborted⟩
  let t3 :=
    if w.confirmUninstall then uninstall_packages w t2 w.sysExecutable true else t2
  ⟨t3.events ++ [Event.panel uninstCompletedMsg], t3.cmds, t3.aborted⟩

end Ghost.Uninstall

namespace Ghost

/-- Concrete list append keeps the last element. -/
theorem getLast_append_single {α : Type} (xs : List α) (a : α) :
    (xs ++ [a]).getLast? = some a :=
  List.getLast?_concat xs

/-- All commands of a trace satisfy a predicate. -/
def CmdsOk (P : List String → Prop) (t : Trace) : Prop :=
  ∀ c ∈ t.cmds, P c

theorem cmdsOk_append {P : List String → Prop} {t : Trace} {e : List Event}
    {cs : List (List String)} {b : Bool} (h : CmdsOk P t)
    (hcs : ∀ c ∈ cs, P c) : CmdsOk P ⟨t.events ++ e, t.cmds ++ cs, b⟩ := by
  intro c hc
  rcases List.mem_append.mp hc with h1 | h2
  · exact h c h1
  · exact hcs c h2

end Ghost

namespace Ghost.Install

theorem emit_cmds (t : Trace) (e : Event) : (emit t e).cmds = t.cmds := by
  unfold emit
  split <;> rfl

theorem emit_aborted (t : Trace) (e : Event) : (emit t e).aborted = t.aborted := by
  unfold emit
  split <;> rfl

theorem emit_of_false {t : Trace} (e : Event) (h : t.aborted = false) :
    emit t e = ⟨t.events ++ [e], t.cmds, false⟩ := by
  unfold emit
  rw [h]
  simp

theorem run_of_aborted {t : Trace} (w : InstallWorld) (cmd : List String) (check : Bool)
    (h : t.aborted = true) : run w t cmd check = t := by
  unfold run
  rw [h]
  simp

theorem run_of_zero {w : InstallWorld} {t : Trace} {cmd : List String} (check : Bool)
    (ha : t.aborted = false) (hz : (w.exec cmd).returncode = 0) :
    run w t cmd check = ⟨t.events ++ [Event.logCmd cmd], t.cmds ++ [cmd], false⟩ := by
  unfold run
  rw [ha]
  simp [hz]

theorem run_of_nonzero {w : InstallWorld} {t : Trace} {cmd : List String} {check : Bool}
    (ha : t.aborted = false) (hz : (w.exec cmd).returncode ≠ 0) :
    run w t cmd check =
      ⟨t.events ++ [Event.logCmd cmd, Event.errorPanel (w.exec cmd).stderr],
       t.cmds ++ [cmd], check⟩ := by
  unfold run
  rw [ha]
  cases check <;> simp [hz]

theorem cmdsOk_emit {P : List String → Prop} {t : Trace} (e : Event)
    (h : CmdsOk P t) : CmdsOk P (emit t e) := by
  intro c hc
  rw [emit_cmds] at hc
  exact h c hc

theorem cmdsOk_run {P : List String → Prop} {t : Trace} {w : InstallWorld}
    {cmd : List String} {check : Bool} (h : CmdsOk P t) (hp : P cmd) :
    CmdsOk P (run w t cmd check) := by
  by_cases ha : t.aborted = true
  · rw [run_of_aborted w cmd check ha]
    exact h
  · have ha' : t.aborted = false := by simpa using ha
    by_cases hz : (w.exec cmd).returncode = 0
    · rw [run_of_zero check ha' hz]
      exact cmdsOk_append h (by intro c hc; simp at hc; subst hc; exact hp)
    · rw [run_of_nonzero ha' hz]
      exact cmdsOk_append h (by intro c hc; simp at hc; subst hc; exact hp)

theorem ensure_fst (w : InstallWorld) (t : Trace) (p : String) :
    (ensure_virtualenv w t p).1 =
      if w.venvExists then emit t (Event.panel (usingVenvMsg p))
      else run w (emit t (Event.panel (creatingVenvMsg p)))
        [w.sysExecutable, "-m", "venv", p] true := by
  simp only [ensure_virtualenv]
  split <;> rfl

theorem ensure_py (w : InstallWorld) (t : Trace) (p : String) :
    (ensure_virtualenv w t p).2.1 =
      if w.isWindows then pjoin (pjoin p "Scripts") "python.exe"
      else pjoin (pjoin p "bin") "python" := by
  simp only [ensure_virtualenv]
  split <;> rfl

theorem ensure_pip (w : InstallWorld) (t : Trace) (p : String) :
    (ensure_virtualenv w t p).2.2 =
      if w.isWindows then pjoin (pjoin p "Scripts") "pip.exe"
      else pjoin (pjoin p "bin") "pip" := by
  simp only [ensure_virtualenv]
  split <;> rfl

theorem cmdsOk_ensure {P : List String → Prop} {t : Trace} {w : InstallWorld}
    {venv_path : String} (h : CmdsOk P t)
    (hp : P [w.sysExecutable, "-m", "venv", venv_path]) :
    CmdsOk P (ensure_virtualenv w t venv_path).1 := by
  rw [ensure_fst]
  split
  · exact cmdsOk_emit _ h
  · exact cmdsOk_run (cmdsOk_emit _ h) hp

theorem cmdsOk_install_packages {P : List String → Prop} {t : Trace}
    {w : InstallWorld} {py_exe : String} {packages : List String}
    {break_system : Bool} (h : CmdsOk P t)
    (hp : P ((py_exe :: "-m" :: "pip" :: "install" :: packages) ++
      (if break_system then [breakFlag] else []))) :
    CmdsOk P (install_packages w t py_exe packages break_system) := by
  unfold install_packages
  split
  · exact h
  · exact cmdsOk_run h hp

theorem cmdsOk_install_local {P : List String → Prop} {t : Trace}
    {w : InstallWorld} {py_exe : String} {break_system : Bool} (h : CmdsOk P t)
    (hp : P ([py_exe, "-m", "pip", "install", ".", "--no-deps"] ++
      (if break_system then [breakFlag] else []))) :
    CmdsOk P (install_local_package w t py_exe break_system) :=
  cmdsOk_run h hp

/-- A command of the form base plus optionally-appended bypass flag ends
in the flag exactly when the flag was requested, provided the base's own
last element is not the flag. -/
theorem last_flag_iff (ys : List String) (x : String) (b : Bool) (hx : x ≠ breakFlag) :
    ((ys ++ [x]) ++ (if b then [breakFlag] else [])).getLast? = some breakFlag ↔
      b = true := by
  cases b
  · simp [getLast_append_single, hx]
  · simp [getLast_append_single]

theorem run_aborted_zero {w : InstallWorld} {t : Trace} {cmd : List String}
    (check : Bool) (hz : (w.exec cmd).returncode = 0) :
    (run w t cmd check).aborted = t.aborted := by
  by_cases ha : t.aborted = true
  · rw [run_of_aborted w cmd check ha]
  · have ha' : t.aborted = false := by simpa using ha
    rw [run_of_zero check ha' hz, ha']

theorem ensure_aborted_zero {w : InstallWorld} {t : Trace} {p : String}
    (hz : ∀ c, (w.exec c).returncode = 0) :
    (ensure_virtualenv w t p).1.aborted = t.aborted := by
  rw [ensure_fst]
  split
  · rw [emit_aborted]
  · rw [run_aborted_zero true (hz _), emit_aborted]

theorem install_packages_aborted_zero {w : InstallWorld} {t : Trace}
    {py_exe : String} {packages : List String} {break_system : Bool}
    (hz : ∀ c, (w.exec c).returncode = 0) :
    (install_packages w t py_exe packages break_system).aborted = t.aborted := by
  unfold install_packages
  split
  · rfl
  · exact run_aborted_zero true (hz _)

theorem install_local_aborted_zero {w : InstallWorld} {t : Trace}
    {py_exe : String} {break_system : Bool}
    (hz : ∀ c, (w.exec c).returncode = 0) :
    (install_local_package w t py_exe break_system).aborted = t.aborted := by
  unfold install_local_package
  exact run_aborted_zero true (hz _)

/-- When every spawned command exits zero, an install run never aborts,
prints the completion panel, and its final console line is the closing
hint. -/
theorem main_success {args : Args} {choice : Choice} {w : InstallWorld}
    (hz : ∀ c, (w.exec c).returncode = 0) :
    (main args choice w).aborted = false ∧
    Event.panel completedMsg ∈ (main args choice w).events ∧
    (main args choice w).events.getLast? = some (Event.printed youCanRunMsg) := by
  obtain ⟨t8, heq, h8⟩ : ∃ t8, main args choice w =
      emit (emit t8 (Event.panel completedMsg)) (Event.printed youCanRunMsg) ∧
      t8.aborted = false := by
    refine ⟨_, rfl, ?_⟩
    rw [install_local_aborted_zero hz, emit_aborted, install_packages_aborted_zero hz,
      emit_aborted, run_aborted_zero true (hz _), emit_aborted]
    split
    · rw [ensure_aborted_zero hz]
      split
      · rfl
      · rfl
    · split
      · rfl
      · rfl
  rw [heq, emit_of_false _ h8, emit_of_false _ rfl]
  refine ⟨rfl, by simp, ?_⟩
  exact getLast_append_single _ _

end Ghost.Install

namespace Ghost.Uninstall

theorem urun_cmds (w : UninstallWorld) (t : Trace) (cmd : List String) (check : Bool) :
    (run w t cmd check).cmds = t.cmds ++ [cmd] := by
  unfold run
  split
  · split <;> rfl
  · rfl

theorem urun_aborted (w : UninstallWorld) (t : Trace) (cmd : List String) (check : Bool) :
    (run w t cmd check).aborted = t.aborted := by
  unfold run
  split
  · split <;> rfl
  · rfl

theorem urun_mem {x : Event} {t : Trace} (w : UninstallWorld) (cmd : List String)
    (check : Bool) (h : x ∈ t.events) : x ∈ (run w t cmd check).events := by
  unfold run
  split
  · split <;> simp [h]
  · simp [h]

theorem ustep_cmds (w : UninstallWorld) (py : String) (b : Bool) (t : Trace)
    (pkg : String) :
    (uninstall_step w py b t pkg).cmds = t.cmds ++ [uninstallCmd py pkg b] := by
  unfold uninstall_step uninstallCmd
  rw [urun_cmds]

theorem ustep_aborted (w : UninstallWorld) (py : String) (b : Bool) (t : Trace)
    (pkg : String) : (uninstall_step w py b t pkg).aborted = t.aborted := by
  unfold uninstall_step
  rw [urun_aborted]

theorem ustep_mem {x : Event} {t : Trace} (w : UninstallWorld) (py : String)
    (b : Bool) (pkg : String) (h : x ∈ t.events) :
    x ∈ (uninstall_step w py b t pkg).events := by
  unfold uninstall_step
  exact urun_mem w _ true (by simp [h])

theorem foldl_ustep_cmds (w : UninstallWorld) (py : String) (b : Bool)
    (l : List String) (t : Trace) :
    (l.foldl (uninstall_step w py b) t).cmds =
      t.cmds ++ l.map (fun pkg => uninstallCmd py pkg b) := by
  induction l generalizing t with
  | nil => simp
  | cons p l ih =>
    rw [List.foldl_cons, ih, ustep_cmds]
    simp

theorem foldl_ustep_aborted (w : UninstallWorld) (py : String) (b : Bool)
    (l : List String) (t : Trace) :
    (l.foldl (uninstall_step w py b) t).aborted = t.aborted := by
  induction l generalizing t with
  | nil => rfl
  | cons p l ih =>
    rw [List.foldl_cons, ih, ustep_aborted]

theorem foldl_ustep_mem {x : Event} (w : UninstallWorld) (py : String) (b : Bool)
    (l : List String) {t : Trace} (h : x ∈ t.events) :
    x ∈ (l.foldl (uninstall_step w py b) t).events := by
  induction l generalizing t with
  | nil => exact h
  | cons p l ih =>
    rw [List.foldl_cons]
    exact ih (ustep_mem w py b p h)

theorem remove_cmds (w : UninstallWorld) (t : Trace) (p : String) :
    (remove_virtualenv w t p).cmds = t.cmds := by
  unfold remove_virtualenv
  split <;> rfl

theorem remove_aborted (w : UninstallWorld) (t : Trace) (p : String) :
    (remove_virtualenv w t p).aborted = t.aborted := by
  unfold remove_virtualenv
  split <;> rfl

theorem remove_mem {x : Event} (w : UninstallWorld) {t : Trace} (p : String)
    (h : x ∈ t.events) : x ∈ (remove_virtualenv w t p).events := by
  unfold remove_virtualenv
  split <;> simp [h]

theorem umain_aborted (w : UninstallWorld) : (main w).aborted = false := by
  unfold main uninstall_packages
  simp only []
  split
  · rw [foldl_ustep_aborted]
    simp only []
    split
    · split
      · rw [remove_aborted]
      · rfl
    · rfl
  · simp only []
    split
    · split
      · rw [remove_aborted]
      · rfl
    · rfl

theorem umain_last (w : UninstallWorld) :
    (main w).events.getLast? = some (Event.panel uninstCompletedMsg) := by
  unfold main
  simp only []
  exact getLast_append_single _ _

theorem umain_confirm_uninstall (w : UninstallWorld) :
    Event.confirmAsk uninstallQuestion w.confirmUninstall ∈ (main w).events := by
  unfold main uninstall_packages
  simp only []
  apply List.mem_append_left
  split
  · apply foldl_ustep_mem
    simp
  · simp

theorem umain_confirm_remove (w : UninstallWorld)
    (hfs : w.fsExists DEFAULT_VENV = true) :
    Event.confirmAsk removeQuestion w.confirmRemove ∈ (main w).events := by
  unfold main uninstall_packages
  rw [hfs]
  simp only [if_pos]
  apply List.mem_append_left
  split
  · apply foldl_ustep_mem
    apply List.mem_append_left
    split
    · apply remove_mem
      simp
    · simp
  · apply List.mem_append_left
    split
    · apply remove_mem
      simp
    · simp

theorem umain_cmds (w : UninstallWorld) :
    (main w).cmds =
      if w.confirmUninstall
      then PYTHON_PACKAGES.map (fun pkg => uninstallCmd w.sysExecutable pkg true)
      else [] := by
  unfold main uninstall_packages
  simp only []
  split
  · rw [foldl_ustep_cmds]
    simp only []
    split
    · split
      · rw [remove_cmds]
        simp
      · simp
    · simp
  · simp only []
    split
    · split
      · rw [remove_cmds]
      · rfl
    · rfl

end Ghost.Uninstall

namespace Ghost

/-- Sample oracle on which every command succeeds. -/
def okExec : List String → ExecResult := fun _ => ⟨0, ""⟩

/-- Sample oracle on which every command fails with captured stderr. -/
def boomExec : List String → ExecResult := fun _ => ⟨1, "boom"⟩

/-- The empty, unaborted trace. -/
def emptyTrace : Trace := ⟨[], [], false⟩

/-- An already-aborted trace. -/
def abortedTrace : Trace := ⟨[], [], true⟩

/-- Install environment: everything succeeds, venv directory present,
POSIX platform. -/
def okWorld : Install.InstallWorld := ⟨okExec, true, false, "python3"⟩

/-- Install environment: everything succeeds, venv directory absent,
POSIX platform. -/
def newVenvWorld : Install.InstallWorld := ⟨okExec, false, false, "python3"⟩

/-- Install environment on which every command fails. -/
def failWorld : Install.InstallWorld := ⟨boomExec, true, false, "python3"⟩

/-- install.py arguments with no flag given. -/
def defaultArgs : Args := ⟨false, ".venv", false, false⟩

/-- install.py arguments: only the auto-confirm flag. -/
def yesArgs : Args := ⟨false, ".venv", false, true⟩

/-- install.py arguments: both --no-venv and --yes. -/
def noVenvYesArgs : Args := ⟨true, ".venv", false, true⟩

end Ghost

namespace Ghost.Install

theorem upgrade_flag_iff (py : String) (b : Bool) :
    (([py, "-m", "pip", "install", "--upgrade", "pip"] ++
      (if b then [breakFlag] else [])).getLast? = some breakFlag) ↔ b = true := by
  cases b <;> simp [breakFlag, List.getLast?_concat]

theorem vcs_flag_iff (py : String) (b : Bool) :
    (((py :: "-m" :: "pip" :: "install" :: VCS_PACKAGES) ++
      (if b then [breakFlag] else [])).getLast? = some breakFlag) ↔ b = true := by
  cases b <;> simp [breakFlag, VCS_PACKAGES, List.getLast?_concat]

theorem local_flag_iff (py : String) (b : Bool) :
    (([py, "-m", "pip", "install", ".", "--no-deps"] ++
      (if b then [breakFlag] else [])).getLast? = some breakFlag) ↔ b = true := by
  cases b <;> simp [breakFlag, List.getLast?_concat]

/-- Every command line an install run hands to the subprocess facility
that is a pip-install invocation ends in --break-system-packages exactly
when the run's bypass flag (the negation of use_venv) is set. -/
theorem main_cmds_flag (args : Args) (choice : Choice) (w : InstallWorld) :
    CmdsOk (fun c => isPipInstall c →
        (c.getLast? = some breakFlag ↔ (!(selectMode args choice).use_venv) = true))
      (main args choice w) := by
  unfold main
  simp only []
  refine cmdsOk_emit _ (cmdsOk_emit _ (cmdsOk_install_local (cmdsOk_emit _
    (cmdsOk_install_packages (cmdsOk_emit _ (cmdsOk_run (cmdsOk_emit _ ?henv) ?hup))
      ?hvcs)) ?hlocal))
  case hup => exact fun _ => upgrade_flag_iff _ _
  case hvcs => exact fun _ => vcs_flag_iff _ _
  case hlocal => exact fun _ => local_flag_iff _ _
  case henv =>
    split
    · apply cmdsOk_ensure
      · split
        · apply cmdsOk_emit
          intro c hc
          simp at hc
        · intro c hc
          simp at hc
      · intro hpip
        simp [isPipInstall] at hpip
    · simp only []
      split
      · apply cmdsOk_emit
        intro c hc
        simp at hc
      · intro c hc
        simp at hc

end Ghost.Install

namespace Ghost

/-- C1's failing scenario: interactive mode with answer brek (the
filtered/system-only mode).  The selected mode is FilteredSystemOnly,
yet the run still passes a git-sourced specifier to pip install: the
brek flag is never consulted after mode selection and the filtered
(empty) PY_PACKAGES list is never used. -/
theorem C1_filtered_mode_still_installs_vcs :
    modeOf (selectMode defaultArgs Choice.brek) = InstallMode.FilteredSystemOnly ∧
    (selectMode defaultArgs Choice.brek).use_brek = true ∧
    (Install.main defaultArgs Choice.brek okWorld).cmds.any
      (fun c => c.contains "pex @ git+https://github.com/EntySec/Pex") = true ∧
    (Install.main defaultArgs Choice.brek okWorld).aborted = false := by
  refine ⟨by decide, by decide, by decide, by decide⟩

/-- C2's failing scenario: with both --no-venv and --yes, the auto-yes
branch overrides --no-venv, so the run selects UseVirtualEnv and the
bypass-protection flag is false: no issued command carries
--break-system-packages. -/
theorem C2_no_venv_yes_gives_no_bypass :
    (selectMode noVenvYesArgs Choice.venv).use_venv = true ∧
    (!(selectMode noVenvYesArgs Choice.venv).use_venv) = false ∧
    modeOf (selectMode noVenvYesArgs Choice.venv) = InstallMode.UseVirtualEnv ∧
    (Install.main noVenvYesArgs Choice.venv okWorld).cmds.any
      (fun c => c.contains breakFlag) = false := by
  refine ⟨rfl, rfl, rfl, by decide⟩

/-- C3: after mode selection, the bypass flag (the negation of use_venv)
holds iff the selected InstallMode is not UseVirtualEnv, and every
pip-install command the run issues ends in --break-system-packages
exactly when the selected mode is not UseVirtualEnv. -/
theorem C3_bypass_iff_not_virtualenv (args : Args) (choice : Choice)
    (w : Install.InstallWorld) :
    ((!(selectMode args choice).use_venv) = true ↔
      modeOf (selectMode args choice) ≠ InstallMode.UseVirtualEnv) ∧
    ∀ c ∈ (Install.main args choice w).cmds, isPipInstall c →
      (c.getLast? = some breakFlag ↔
        modeOf (selectMode args choice) ≠ InstallMode.UseVirtualEnv) := by
  have hmode : (!(selectMode args choice).use_venv) = true ↔
      modeOf (selectMode args choice) ≠ InstallMode.UseVirtualEnv := by
    cases hv : (selectMode args choice).use_venv <;>
      cases hb : (selectMode args choice).use_brek <;>
        simp [modeOf, hv, hb]
  refine ⟨hmode, fun c hc hpip => ?_⟩
  rw [← hmode]
  exact Install.main_cmds_flag args choice w c hc hpip

/-- Witness for C3 at a concrete system-mode run: the pip self-upgrade
command of an interactive system-mode run ends in the bypass flag, and
the selected mode is DirectSystem. -/
theorem C3_witness :
    ["python3", "-m", "pip", "install", "--upgrade", "pip", breakFlag] ∈
      (Install.main defaultArgs Choice.system okWorld).cmds ∧
    isPipInstall ["python3", "-m", "pip", "install", "--upgrade", "pip", breakFlag] ∧
    ((["python3", "-m", "pip", "install", "--upgrade", "pip", breakFlag] :
        List String).getLast? = some breakFlag ↔
      modeOf (selectMode defaultArgs Choice.system) ≠ InstallMode.UseVirtualEnv) := by
  refine ⟨by decide, by decide, ?_⟩
  exact (C3_bypass_iff_not_virtualenv defaultArgs Choice.system okWorld).2
    ["python3", "-m", "pip", "install", "--upgrade", "pip", breakFlag]
    (by decide) (by decide)

/-- C4: in install.py, a required (checked) step whose command exits
non-zero prints the captured stderr and aborts; nothing runs after an
abort; a zero exit appends only the log entry and keeps the run alive;
and if every command exits zero the whole run ends unaborted with the
completion panel and the closing hint as its last line. -/
theorem C4_required_failure_aborts (w : Install.InstallWorld) (t : Trace)
    (cmd : List String) (args : Args) (choice : Choice) :
    (t.aborted = false → (w.exec cmd).returncode ≠ 0 →
      ((Install.run w t cmd true).aborted = true ∧
        Event.errorPanel (w.exec cmd).stderr ∈ (Install.run w t cmd true).events)) ∧
    (t.aborted = true → ∀ check, Install.run w t cmd check = t) ∧
    (t.aborted = false → (w.exec cmd).returncode = 0 →
      Install.run w t cmd true = ⟨t.events ++ [Event.logCmd cmd], t.cmds ++ [cmd], false⟩) ∧
    ((∀ c, (w.exec c).returncode = 0) →
      ((Install.main args choice w).aborted = false ∧
        Event.panel Install.completedMsg ∈ (Install.main args choice w).events ∧
        (Install.main args choice w).events.getLast? =
          some (Event.printed Install.youCanRunMsg))) := by
  refine ⟨?_, ?_, ?_, ?_⟩
  · intro ha hnz
    rw [Install.run_of_nonzero ha hnz]
    exact ⟨rfl, by simp⟩
  · intro ha check
    exact Install.run_of_aborted w cmd check ha
  · intro ha hz
    exact Install.run_of_zero true ha hz
  · intro hz
    exact Install.main_success hz

/-- Witness for C4: a failing command on the empty trace aborts with the
captured stderr printed; a run call on an aborted trace is the identity;
a succeeding command just logs; and an all-success install run ends
unaborted. -/
theorem C4_witness :
    ((Install.run failWorld emptyTrace ["pip"] true).aborted = true ∧
      Event.errorPanel "boom" ∈ (Install.run failWorld emptyTrace ["pip"] true).events) ∧
    (Install.run failWorld abortedTrace ["pip"] true = abortedTrace) ∧
    (Install.run okWorld emptyTrace ["pip"] true =
      ⟨[Event.logCmd ["pip"]], [["pip"]], false⟩) ∧
    ((Install.main yesArgs Choice.venv okWorld).aborted = false ∧
      Event.panel Install.completedMsg ∈ (Install.main yesArgs Choice.venv okWorld).events ∧
      (Install.main yesArgs Choice.venv okWorld).events.getLast? =
        some (Event.printed Install.youCanRunMsg)) := by
  refine ⟨?_, ?_, ?_, ?_⟩
  · exact (C4_required_failure_aborts failWorld emptyTrace ["pip"] yesArgs Choice.venv).1
      rfl (by decide)
  · exact (C4_required_failure_aborts failWorld abortedTrace ["pip"] yesArgs Choice.venv).2.1
      rfl true
  · exact (C4_required_failure_aborts okWorld emptyTrace ["pip"] yesArgs Choice.venv).2.2.1
      rfl rfl
  · exact (C4_required_failure_aborts okWorld emptyTrace ["pip"] yesArgs Choice.venv).2.2.2
      (fun c => rfl)

/-- C5: the environment resolver runs the virtual-environment
provisioner exactly once when the requested path does not exist, runs it
not at all when the path exists, and resolves the interpreter and pip
paths by the POSIX (bin/python, bin/pip) or Windows
(Scripts/python.exe, Scripts/pip.exe) layout. -/
theorem C5_environment_resolver (w : Install.InstallWorld) (t : Trace) (p : String)
    (ha : t.aborted = false) :
    (w.venvExists = true → (Install.ensure_virtualenv w t p).1.cmds = t.cmds) ∧
    (w.venvExists = false → (Install.ensure_virtualenv w t p).1.cmds =
      t.cmds ++ [[w.sysExecutable, "-m", "venv", p]]) ∧
    (Install.ensure_virtualenv w t p).2.1 =
      (if w.isWindows then p ++ "/Scripts/python.exe" else p ++ "/bin/python") ∧
    (Install.ensure_virtualenv w t p).2.2 =
      (if w.isWindows then p ++ "/Scripts/pip.exe" else p ++ "/bin/pip") := by
  refine ⟨?_, ?_, ?_, ?_⟩
  · intro hv
    rw [Install.ensure_fst, if_pos hv, Install.emit_cmds]
  · intro hv
    rw [Install.ensure_fst, if_neg (by simp [hv])]
    have he : (Install.emit t (Event.panel (Install.creatingVenvMsg p))).aborted = false := by
      rw [Install.emit_aborted, ha]
    by_cases hz : (w.exec [w.sysExecutable, "-m", "venv", p]).returncode = 0
    · rw [Install.run_of_zero true he hz]
      simp [Install.emit_cmds]
    · rw [Install.run_of_nonzero he hz]
      simp [Install.emit_cmds]
  · rw [Install.ensure_py]
    split <;> simp [*, pjoin, String.append_assoc]
  · rw [Install.ensure_pip]
    split <;> simp [*, pjoin, String.append_assoc]

/-- Witness for C5 at a non-existing venv path: exactly one provisioner
invocation is recorded and the POSIX layout paths are returned. -/
theorem C5_witness :
    emptyTrace.aborted = false ∧
    newVenvWorld.venvExists = false ∧
    (Install.ensure_virtualenv newVenvWorld emptyTrace ".venv").1.cmds =
      [["python3", "-m", "venv", ".venv"]] ∧
    (Install.ensure_virtualenv newVenvWorld emptyTrace ".venv").2.1 = ".venv/bin/python" ∧
    (Install.ensure_virtualenv newVenvWorld emptyTrace ".venv").2.2 = ".venv/bin/pip" := by
  refine ⟨rfl, rfl, ?_, ?_, ?_⟩
  · exact (C5_environment_resolver newVenvWorld emptyTrace ".venv" rfl).2.1 rfl
  · exact ((C5_environment_resolver newVenvWorld emptyTrace ".venv" rfl).2.2.1).trans
      (by decide)
  · exact ((C5_environment_resolver newVenvWorld emptyTrace ".venv" rfl).2.2.2).trans
      (by decide)

/-- C9: with --yes as the only mode-affecting flag the interactive
prompt is never consulted (the selection is the same for every possible
answer and the prompted marker is false), the selected mode is
UseVirtualEnv, and the bypass-protection flag is false. -/
theorem C9_yes_alone_uses_virtualenv (choice : Choice) :
    (selectMode yesArgs choice).prompted = false ∧
    (selectMode yesArgs choice).use_venv = true ∧
    (!(selectMode yesArgs choice).use_venv) = false ∧
    modeOf (selectMode yesArgs choice) = InstallMode.UseVirtualEnv ∧
    ∀ c2 : Choice, selectMode yesArgs choice = selectMode yesArgs c2 := by
  cases choice <;>
    exact ⟨rfl, rfl, rfl, rfl, fun c2 => by cases c2 <;> rfl⟩

end Ghost

namespace Ghost.Uninstall

theorem urun_events_zero (w : UninstallWorld) (t : Trace) (cmd : List String)
    (check : Bool) (hz : (w.exec cmd).returncode = 0) :
    (run w t cmd check).events = t.events ++ [Event.logCmd cmd] := by
  unfold run
  simp [hz]

theorem urun_events_nonzero (w : UninstallWorld) (t : Trace) (cmd : List String)
    (hnz : (w.exec cmd).returncode ≠ 0) :
    (run w t cmd true).events =
      t.events ++ [Event.logCmd cmd, Event.cmdFailedPanel cmd] := by
  unfold run
  simp [hnz]

/-- One uninstall-loop iteration appends either two events (announce
panel and command log) or three (plus the failure panel). -/
theorem ustep_events_cases (w : UninstallWorld) (py : String) (b : Bool)
    (t : Trace) (pkg : String) :
    (uninstall_step w py b t pkg).events =
        t.events ++ [Event.panel (uninstallingMsg pkg),
          Event.logCmd (uninstallCmd py pkg b)] ∨
    (uninstall_step w py b t pkg).events =
        t.events ++ [Event.panel (uninstallingMsg pkg),
          Event.logCmd (uninstallCmd py pkg b),
          Event.cmdFailedPanel (uninstallCmd py pkg b)] := by
  by_cases hz : (w.exec (uninstallCmd py pkg b)).returncode = 0
  · left
    unfold uninstall_step
    rw [urun_events_zero w _ _ true hz]
    simp
  · right
    unfold uninstall_step
    rw [urun_events_nonzero w _ _ hz]
    simp

/-- Every event of the uninstall loop is either inherited from the
incoming trace or one of the three per-package event forms. -/
theorem foldl_ustep_events_char (w : UninstallWorld) (py : String) (b : Bool)
    (l : List String) (t : Trace) :
    ∀ e ∈ (l.foldl (uninstall_step w py b) t).events,
      e ∈ t.events ∨ ∃ pkg ∈ l,
        e = Event.panel (uninstallingMsg pkg) ∨
        e = Event.logCmd (uninstallCmd py pkg b) ∨
        e = Event.cmdFailedPanel (uninstallCmd py pkg b) := by
  induction l generalizing t with
  | nil =>
    intro e he
    exact Or.inl he
  | cons p l ih =>
    intro e he
    rw [List.foldl_cons] at he
    rcases ih (uninstall_step w py b t p) e he with hin | ⟨pkg, hpkg, hc⟩
    · rcases ustep_events_cases w py b t p with hc2 | hc2 <;> rw [hc2] at hin
      · rcases List.mem_append.mp hin with h | h
        · exact Or.inl h
        · simp only [List.mem_cons, List.not_mem_nil, or_false] at h
          rcases h with h | h
          · exact Or.inr ⟨p, List.mem_cons_self p l, Or.inl h⟩
          · exact Or.inr ⟨p, List.mem_cons_self p l, Or.inr (Or.inl h)⟩
      · rcases List.mem_append.mp hin with h | h
        · exact Or.inl h
        · simp only [List.mem_cons, List.not_mem_nil, or_false] at h
          rcases h with h | h | h
          · exact Or.inr ⟨p, List.mem_cons_self p l, Or.inl h⟩
          · exact Or.inr ⟨p, List.mem_cons_self p l, Or.inr (Or.inl h)⟩
          · exact Or.inr ⟨p, List.mem_cons_self p l, Or.inr (Or.inr h)⟩
    · exact Or.inr ⟨pkg, List.mem_cons_of_mem p hpkg, hc⟩

/-- When the default venv directory is absent, every event of an
uninstall run is the banner, the uninstall confirmation, the completion
panel, or a per-package uninstall-loop event. -/
theorem umain_events_char (w : UninstallWorld)
    (hfs : w.fsExists DEFAULT_VENV = false) :
    ∀ e ∈ (main w).events,
      e = Event.panel uninstBannerMsg ∨
      e = Event.confirmAsk uninstallQuestion w.confirmUninstall ∨
      e = Event.panel uninstCompletedMsg ∨
      ∃ pkg ∈ PYTHON_PACKAGES,
        e = Event.panel (uninstallingMsg pkg) ∨
        e = Event.logCmd (uninstallCmd w.sysExecutable pkg true) ∨
        e = Event.cmdFailedPanel (uninstallCmd w.sysExecutable pkg true) := by
  unfold main uninstall_packages
  rw [hfs]
  simp only [Bool.false_eq_true, if_false]
  intro e he
  rcases List.mem_append.mp he with he | he
  · split at he
    · rcases foldl_ustep_events_char w w.sysExecutable true PYTHON_PACKAGES _ e he with
        hin | ⟨pkg, hpkg, hc⟩
      · simp only [List.mem_append, List.mem_cons, List.not_mem_nil, or_false,
          List.mem_singleton] at hin
        rcases hin with h | h
        · exact Or.inl h
        · exact Or.inr (Or.inl h)
      · exact Or.inr (Or.inr (Or.inr ⟨pkg, hpkg, hc⟩))
    · simp only [List.mem_append, List.mem_cons, List.not_mem_nil, or_false,
        List.mem_singleton] at he
      rcases he with h | h
      · exact Or.inl h
      · exact Or.inr (Or.inl h)
  · simp only [List.mem_cons, List.not_mem_nil, or_false] at he
    exact Or.inr (Or.inr (Or.inl he))

end Ghost.Uninstall

namespace Ghost

/-- Uninstall environment: the default venv directory is absent; the
operator would answer yes to removal and no to package uninstall. -/
def absentVenvWorld : Uninstall.UninstallWorld :=
  ⟨okExec, fun _ => false, true, false, "python3"⟩

/-- Uninstall environment: the default venv directory is present and
both confirmations are answered yes. -/
def presentVenvWorld : Uninstall.UninstallWorld :=
  ⟨okExec, fun _ => true, true, true, "python3"⟩

/-- Uninstall environment on which every command fails with captured
stderr, venv absent, both confirmations answered no. -/
def failUWorld : Uninstall.UninstallWorld :=
  ⟨boomExec, fun _ => false, false, false, "python3"⟩

/-- Oracle failing exactly the pip-uninstall command for pex. -/
def pexFailExec : List String → ExecResult :=
  fun c => if c.contains "pex" then ⟨1, "fail"⟩ else ⟨0, ""⟩

/-- Uninstall environment where uninstalling pex fails and package
removal is confirmed. -/
def pexFailWorld : Uninstall.UninstallWorld :=
  ⟨pexFailExec, fun _ => false, false, true, "python3"⟩

/-- C6's counterexample: in a full uninstall run with the default venv
directory absent, no absence message is ever printed (the run's whole
event list is the banner, one confirmation and the completion panel),
against the claim that the absence is reported. -/
theorem C6_counterexample_absence_not_reported :
    absentVenvWorld.fsExists DEFAULT_VENV = false ∧
    (Uninstall.main absentVenvWorld).events =
      [Event.panel Uninstall.uninstBannerMsg,
       Event.confirmAsk Uninstall.uninstallQuestion false,
       Event.panel Uninstall.uninstCompletedMsg] ∧
    Event.panel Uninstall.noVenvMsg ∉ (Uninstall.main absentVenvWorld).events := by
  refine ⟨rfl, by decide, by decide⟩

/-- C6 amended: when the default venv directory does not exist, the
uninstaller skips the removal step silently: it prints no absence
message, asks no removal confirmation, removes nothing, and the run
continues without error to the completion panel.  (The absence report
exists only inside remove_virtualenv, which main does not reach in that
case.) -/
theorem C6_amended_absent_venv_skipped_silently (w : Uninstall.UninstallWorld)
    (hfs : w.fsExists DEFAULT_VENV = false) :
    Event.panel Uninstall.noVenvMsg ∉ (Uninstall.main w).events ∧
    (∀ p, Event.rmtree p ∉ (Uninstall.main w).events) ∧
    (∀ a, Event.confirmAsk Uninstall.removeQuestion a ∉ (Uninstall.main w).events) ∧
    (Uninstall.main w).aborted = false ∧
    (Uninstall.main w).events.getLast? = some (Event.panel Uninstall.uninstCompletedMsg) := by
  refine ⟨?_, ?_, ?_, Uninstall.umain_aborted w, Uninstall.umain_last w⟩
  · intro hmem
    rcases Uninstall.umain_events_char w hfs _ hmem with h | h | h | ⟨pkg, hpkg, h | h | h⟩
    · exact absurd h (by decide)
    · exact absurd h (by simp)
    · exact absurd h (by decide)
    · simp [PYTHON_PACKAGES] at hpkg
      rcases hpkg with rfl | rfl | rfl | rfl | rfl <;> exact absurd h (by decide)
    · exact absurd h (by simp)
    · exact absurd h (by simp)
  · intro p hmem
    rcases Uninstall.umain_events_char w hfs _ hmem with h | h | h | ⟨pkg, _, h | h | h⟩ <;>
      simp at h
  · intro a hmem
    rcases Uninstall.umain_events_char w hfs _ hmem with h | h | h | ⟨pkg, _, h | h | h⟩ <;>
      simp at h
    exact absurd h.1 (by decide)

/-- Witness for C6's amended claim at a concrete absent-venv run. -/
theorem C6_amended_witness :
    absentVenvWorld.fsExists DEFAULT_VENV = false ∧
    Event.panel Uninstall.noVenvMsg ∉ (Uninstall.main absentVenvWorld).events ∧
    (Uninstall.main absentVenvWorld).events.getLast? =
      some (Event.panel Uninstall.uninstCompletedMsg) := by
  refine ⟨rfl, ?_, ?_⟩
  · exact (C6_amended_absent_venv_skipped_silently absentVenvWorld rfl).1
  · exact (C6_amended_absent_venv_skipped_silently absentVenvWorld rfl).2.2.2.2

end Ghost

namespace Ghost

/-- C7's counterexample: a failing command in the uninstaller prints
only the command line; the captured error text is never part of the
output (uninstall.py does not capture output at all), against the claim
that both scripts print the captured error text. -/
theorem C7_counterexample_uninstall_no_stderr :
    (failUWorld.exec ["badcmd"]).returncode = 1 ∧
    (failUWorld.exec ["badcmd"]).stderr = "boom" ∧
    (Uninstall.run failUWorld emptyTrace ["badcmd"] true).events =
      [Event.logCmd ["badcmd"], Event.cmdFailedPanel ["badcmd"]] ∧
    Event.errorPanel "boom" ∉ (Uninstall.run failUWorld emptyTrace ["badcmd"] true).events := by
  refine ⟨rfl, rfl, by decide, by decide⟩

/-- C7 amended: in install.py every failing command's output contains
the logged command line followed by the captured stderr, printed before
the abort; in uninstall.py a failing command's output contains the
logged command line and a failure panel naming only the command (its
output is not captured), and nothing aborts. -/
theorem C7_amended_failure_output (w : Install.InstallWorld) (t : Trace)
    (cmd : List String) (wu : Uninstall.UninstallWorld) (tu : Trace)
    (cu : List String) :
    (t.aborted = false → (w.exec cmd).returncode ≠ 0 →
      ((Install.run w t cmd true).events =
          t.events ++ [Event.logCmd cmd, Event.errorPanel (w.exec cmd).stderr] ∧
        (Install.run w t cmd true).aborted = true)) ∧
    ((wu.exec cu).returncode ≠ 0 →
      ((Uninstall.run wu tu cu true).events =
          tu.events ++ [Event.logCmd cu, Event.cmdFailedPanel cu] ∧
        (Uninstall.run wu tu cu true).aborted = tu.aborted)) := by
  constructor
  · intro ha hnz
    rw [Install.run_of_nonzero ha hnz]
    exact ⟨rfl, rfl⟩
  · intro hnz
    constructor
    · rw [Uninstall.urun_events_nonzero wu tu cu hnz]
    · exact Uninstall.urun_aborted wu tu cu true

/-- Witness for C7's amended claim at concrete failing commands in both
scripts. -/
theorem C7_amended_witness :
    ((Install.run failWorld emptyTrace ["x"] true).events =
        [Event.logCmd ["x"], Event.errorPanel "boom"] ∧
      (Install.run failWorld emptyTrace ["x"] true).aborted = true) ∧
    ((Uninstall.run failUWorld emptyTrace ["x"] true).events =
        [Event.logCmd ["x"], Event.cmdFailedPanel ["x"]] ∧
      (Uninstall.run failUWorld emptyTrace ["x"] true).aborted = false) := by
  constructor
  · exact (C7_amended_failure_output failWorld emptyTrace ["x"]
      failUWorld emptyTrace ["x"]).1 rfl (by decide)
  · exact (C7_amended_failure_output failWorld emptyTrace ["x"]
      failUWorld emptyTrace ["x"]).2 (by decide)

/-- C8: whenever package removal is confirmed, the uninstaller issues
exactly one pip-uninstall command per package of the fixed list, in
order, whatever exit codes the commands return; in particular the
attempts for badges and colorscript are issued regardless of a failure
for pex. -/
theorem C8_every_package_attempted (w : Uninstall.UninstallWorld)
    (hc : w.confirmUninstall = true) :
    (Uninstall.main w).cmds =
      PYTHON_PACKAGES.map (fun pkg => Uninstall.uninstallCmd w.sysExecutable pkg true) ∧
    Uninstall.uninstallCmd w.sysExecutable "pex" true ∈ (Uninstall.main w).cmds ∧
    Uninstall.uninstallCmd w.sysExecutable "badges" true ∈ (Uninstall.main w).cmds ∧
    Uninstall.uninstallCmd w.sysExecutable "colorscript" true ∈ (Uninstall.main w).cmds := by
  have h := Uninstall.umain_cmds w
  rw [hc] at h
  simp only [if_pos] at h
  refine ⟨h, ?_, ?_, ?_⟩ <;> rw [h] <;> simp [PYTHON_PACKAGES]

/-- Witness for C8 on a run where the pex uninstall fails: all five
uninstall commands are still issued, badges and colorscript included. -/
theorem C8_witness :
    pexFailWorld.confirmUninstall = true ∧
    (pexFailWorld.exec (Uninstall.uninstallCmd "python3" "pex" true)).returncode ≠ 0 ∧
    (Uninstall.main pexFailWorld).cmds =
      [Uninstall.uninstallCmd "python3" "ghost" true,
       Uninstall.uninstallCmd "python3" "adb-shell" true,
       Uninstall.uninstallCmd "python3" "pex" true,
       Uninstall.uninstallCmd "python3" "badges" true,
       Uninstall.uninstallCmd "python3" "colorscript" true] ∧
    Uninstall.uninstallCmd "python3" "badges" true ∈ (Uninstall.main pexFailWorld).cmds ∧
    Uninstall.uninstallCmd "python3" "colorscript" true ∈ (Uninstall.main pexFailWorld).cmds := by
  refine ⟨rfl, by decide, ?_, ?_, ?_⟩
  · exact ((C8_every_package_attempted pexFailWorld rfl).1).trans (by decide)
  · exact (C8_every_package_attempted pexFailWorld rfl).2.2.1
  · exact (C8_every_package_attempted pexFailWorld rfl).2.2.2

/-- C10: for every assignment of exit codes to the spawned commands, an
uninstall run never aborts, asks the package-uninstall confirmation,
asks the venv-removal confirmation whenever the default directory
exists, and always ends with the completion panel. -/
theorem C10_uninstaller_never_aborts (w : Uninstall.UninstallWorld) :
    (Uninstall.main w).aborted = false ∧
    Event.confirmAsk Uninstall.uninstallQuestion w.confirmUninstall ∈
      (Uninstall.main w).events ∧
    (w.fsExists DEFAULT_VENV = true →
      Event.confirmAsk Uninstall.removeQuestion w.confirmRemove ∈
        (Uninstall.main w).events) ∧
    (Uninstall.main w).events.getLast? = some (Event.panel Uninstall.uninstCompletedMsg) :=
  ⟨Uninstall.umain_aborted w, Uninstall.umain_confirm_uninstall w,
    fun hfs => Uninstall.umain_confirm_remove w hfs, Uninstall.umain_last w⟩

/-- Witness for C10 at a concrete run with the default venv present. -/
theorem C10_witness :
    (Uninstall.main presentVenvWorld).aborted = false ∧
    Event.confirmAsk Uninstall.removeQuestion true ∈ (Uninstall.main presentVenvWorld).events ∧
    (Uninstall.main presentVenvWorld).events.getLast? =
      some (Event.panel Uninstall.uninstCompletedMsg) := by
  refine ⟨(C10_uninstaller_never_aborts presentVenvWorld).1, ?_,
    (C10_uninstaller_never_aborts presentVenvWorld).2.2.2⟩
  exact (C10_uninstaller_never_aborts presentVenvWorld).2.2.1 rfl

end Ghost
